import Mathlib

/-!
# Verification of the item-warehouse dynamic-schema engine

Shallow embedding of the CRUD engine in
`item_warehouse_api/src/crud.py`, together with the legacy HTTP
endpoint `item_warehouse/src/app/main.py::create_warehouse`.

Records, schemas and the registry are modelled as association lists;
the storage layer (one registry table, one physical table per
warehouse) is an explicit `DBState` threaded through each operation.
Python dict indexing that can raise `KeyError`, the `//` operator's
`ZeroDivisionError`, and SQLAlchemy's `OperationalError` /
`IntegrityError` are modelled as explicit error constructors, so every
exception path of the source is an ordinary value here.

Support modules of the API package (`models.py`, `schemas.py`,
`exceptions.py`) are absent from the source tree; the handful of
helpers `crud.py` calls from them (`search_params_are_pks`,
`parse_pk_dict`, the pydantic validator, `DisplayType`) are modelled
from the specification and marked as such in their doc comments.
-/

/-- Equality of fallible results is decidable, so concrete runs of the
embedded operations can be checked by evaluation. -/
instance {ε α : Type} [DecidableEq ε] [DecidableEq α] :
    DecidableEq (Except ε α) := fun x y =>
  match x, y with
  | .ok a, .ok b =>
    if h : a = b then isTrue (by rw [h])
    else isFalse (fun hh => by cases hh; exact h rfl)
  | .error a, .error b =>
    if h : a = b then isTrue (by rw [h])
    else isFalse (fun hh => by cases hh; exact h rfl)
  | .ok _, .error _ => isFalse (fun hh => by cases hh)
  | .error _, .ok _ => isFalse (fun hh => by cases hh)

/-- A runtime field value at the storage boundary. -/
inductive Value
  | vInt (n : Int)
  | vStr (s : String)
  | vBool (b : Bool)
  | vNull
deriving DecidableEq

/-- The closed set of declared field types (spec section 3). -/
inductive FieldType
  | tInteger
  | tFloat
  | tString
  | tBoolean
  | tDatetime
  | tJson
deriving DecidableEq

/-- The value stored under `"autoincrement"` in a field's schema dict:
absent, `True`, `False`, or the string `"auto"`.  `crud.py` tests
`.get("autoincrement") in (True, "auto")`. -/
inductive AutoSetting
  | aunset
  | atrue
  | afalse
  | aauto
deriving DecidableEq

/-- `crud.py::create_item`: `.get("autoincrement") in (True, "auto")`. -/
def AutoSetting.triggers : AutoSetting → Bool
  | .atrue => true
  | .aauto => true
  | _ => false

/-- Modelled from the spec: the display hint enumeration of the absent
`schemas.py`, including the special reset value (spec section 4.1:
"a special reset hint recomputes the default display hint from the
field's declared type"). -/
inductive DisplayType
  | text
  | number
  | boolean
  | datetime
  | json
  | reset
deriving DecidableEq

/-- Modelled from the spec: the default display hint computed from a
field's declared type (`DisplayType.from_type_name` in the absent
`schemas.py`). -/
def DisplayType.from_type_name : FieldType → DisplayType
  | .tInteger => .number
  | .tFloat => .number
  | .tString => .text
  | .tBoolean => .boolean
  | .tDatetime => .datetime
  | .tJson => .json

/-- One field's descriptor inside an item schema (spec section 3). -/
structure FieldDescriptor where
  type : FieldType
  nullable : Bool
  hasDefault : Bool
  autoincrement : AutoSetting
  display_as : DisplayType
  primaryKey : Bool
deriving DecidableEq

/-- `item_schema`: ordered mapping field name to descriptor. -/
abbrev ItemSchema := List (String × FieldDescriptor)

/-- An untyped field-map (a Python dict at the API boundary). -/
abbrev Record := List (String × Value)

/-- Python `key in dict`. -/
def hasField (r : Record) (f : String) : Bool :=
  (r.lookup f).isSome

/-- Python `current | patch`: keys of `cur` keep their position, values
overridden by `patch` where present; keys only in `patch` follow. -/
def mergeRecords (cur patch : Record) : Record :=
  cur.map (fun kv => (kv.1, ((patch.lookup kv.1).getD kv.2)))
    ++ patch.filter (fun kv => !(hasField cur kv.1))

/-- A SQL partial `UPDATE`: set each column named in `patch` on row
`r`; columns not named keep their value, names absent from the row add
nothing. -/
def applyPatch (r patch : Record) : Record :=
  r.map (fun kv => (kv.1, ((patch.lookup kv.1).getD kv.2)))

/-- A registered warehouse: one registry row (name, record-type name,
schema blob). -/
structure Warehouse where
  name : String
  item_name : String
  item_schema : ItemSchema
deriving DecidableEq

/-- Modelled from the spec: `Warehouse.pk_name` of the absent
`models.py` — the key-field names in declaration order (spec section 3:
"primary-key field set = the subset of field names marked as key
fields"). -/
def Warehouse.pk_name (w : Warehouse) : List String :=
  (w.item_schema.filter (fun fd => fd.2.primaryKey)).map Prod.fst

/-- Modelled from the spec: `Warehouse.parse_pk_dict` of the absent
`models.py` — "extract and order the values by the key-field
declaration order" (spec section 4.4). -/
def parse_pk_dict (w : Warehouse) (vals : Record) : List (Option Value) :=
  w.pk_name.map (fun k => vals.lookup k)

/-- A stored row's primary-key tuple, in key-field declaration order. -/
def keyTuple (w : Warehouse) (r : Record) : List (Option Value) :=
  w.pk_name.map (fun k => r.lookup k)

/-- The registration request body (`WarehouseCreate`). -/
structure WarehouseCreate where
  name : String
  item_name : String
  item_schema : ItemSchema
deriving DecidableEq

/-- The registry row built from a registration request. -/
def WarehouseCreate.toWarehouse (w : WarehouseCreate) : Warehouse :=
  ⟨w.name, w.item_name, w.item_schema⟩

/-- The whole storage layer: whether the registry table itself exists
(cold start), the registry rows, and the physical per-warehouse tables
keyed by record-type name. -/
structure DBState where
  registryExists : Bool
  registry : List Warehouse
  tables : List (String × List Record)
deriving DecidableEq

/-- Rows of the physical table backing record type `n`. -/
def getTable (db : DBState) (n : String) : List Record :=
  (db.tables.lookup n).getD []

/-- Replace (or create) the physical table backing record type `n`. -/
def setAssoc : List (String × List Record) → String → List Record →
    List (String × List Record)
  | [], n, t => [(n, t)]
  | e :: es, n, t =>
    if e.1 = n then (n, t) :: es else e :: setAssoc es n t

/-- Write back a physical table into the storage state. -/
def setTable (db : DBState) (n : String) (t : List Record) : DBState :=
  { db with tables := setAssoc db.tables n t }

/-- DDL create of an empty physical table (Table Provisioner). -/
def addTable (db : DBState) (n : String) : DBState :=
  { db with tables := db.tables ++ [(n, [])] }

/-- DDL drop tolerating absence (`drop_warehouse(no_exist_ok=True)`). -/
def dropTable (db : DBState) (n : String) : DBState :=
  { db with tables := db.tables.filter (fun e => !(e.1 = n : Bool)) }

/-- Every way an operation can leave the happy path: the spec's error
taxonomy plus the raw Python/storage exceptions the code can leak. -/
inductive CrudError
  | nameReserved (name : String)
  | alreadyExists
  | itemTypeExists
  | warehouseNotFound (name : String)
  | itemNotFound
  | itemSchemaNotFound
  | itemExists
  | invalidFields (fields : List String)
  | validationError (fields : List String)
  | tooManyResults (n : Nat)
  | operationalError
  | zeroDivision
  | keyError (field : String)
  | attrError (field : String)
deriving DecidableEq

/-- Membership in the spec's error taxonomy (spec section 7): plain
Python exceptions (`KeyError`, `AttributeError`, `ZeroDivisionError`)
and raw storage failures are not taxonomy kinds. -/
def isTaxonomyError : CrudError → Bool
  | .operationalError => false
  | .zeroDivision => false
  | .keyError _ => false
  | .attrError _ => false
  | _ => true

/-- `crud.py::get_warehouse` with `no_exist_ok=True`: first registry
row whose name matches, or `none`. -/
def get_warehouse (db : DBState) (name : String) : Option Warehouse :=
  db.registry.find? (fun w => decide (w.name = name))

/-- `models.py::WarehousePage` of the registry list endpoint. -/
structure WarehousePage where
  count : Nat
  warehouses : List Warehouse
  max_page : Nat
  page : Nat
  total : Nat
deriving DecidableEq

/-- Modelled from the spec: `WarehousePage.empty()` of the absent
`models.py` — the empty page returned on a tolerated cold start
(spec section 4.1). -/
def WarehousePage.empty : WarehousePage :=
  ⟨0, [], 0, 1, 0⟩

/-- `crud.py::get_warehouses` line 144: `limit = limit or total`
(Python truthiness: both `None` and `0` fall back to `total`). -/
def effectiveLimit (limit : Option Nat) (total : Nat) : Nat :=
  match limit with
  | none => total
  | some 0 => total
  | some l => l

/-- `crud.py::get_warehouses`: offset/limit slice of the registry,
unfiltered total, `max_page = total // limit` after
`limit = limit or total`.  A missing registry table raises
`OperationalError` unless `allow_no_warehouse_table`; Python `//` with
a zero divisor raises `ZeroDivisionError`. -/
def get_warehouses (db : DBState) (offset : Nat) (limit : Option Nat)
    (allow_no_warehouse_table : Bool) : Except CrudError WarehousePage :=
  if !db.registryExists then
    if allow_no_warehouse_table then .ok WarehousePage.empty
    else .error .operationalError
  else
    let afterOffset := db.registry.drop offset
    let ws := match limit with
      | none => afterOffset
      | some l => afterOffset.take l
    let total := db.registry.length
    let l := effectiveLimit limit total
    if l = 0 then .error .zeroDivision
    else .ok ⟨ws.length, ws, total / l, offset / l + 1, total⟩

/-- `crud.py::create_warehouse` lines 47-61: build the registry row,
`intialise_warehouse()` creates the physical table, then the
add/commit/refresh block.  `persistFails` is the storage oracle for an
`OperationalError` raised by the commit; the source's `except` handler
drops the table (tolerating absence) and then falls through to
`return db_warehouse` — it does NOT re-raise. -/
def create_warehouse (db : DBState) (w : WarehouseCreate)
    (persistFails : Bool) : (Except CrudError Warehouse) × DBState :=
  let wh := w.toWarehouse
  let db1 := addTable db w.item_name
  if persistFails then
    (.ok wh, dropTable db1 w.item_name)
  else
    (.ok wh, { db1 with registry := db1.registry ++ [wh] })

/-- `main.py::create_warehouse` lines 39-71 (the legacy endpoint): the
reserved-name check precedes every other step; the subsequent
duplicate-name check, duplicate-item-name check and the creation itself
follow the register flow of spec section 4.1 (the legacy `crud` module
those branches call is absent from the source tree). -/
def main_create_warehouse (db : DBState) (w : WarehouseCreate) :
    (Except CrudError Warehouse) × DBState :=
  if w.name = "warehouse" then
    (.error (.nameReserved w.name), db)
  else if (db.registry.find? (fun x => decide (x.name = w.name))).isSome then
    (.error .alreadyExists, db)
  else if (db.registry.find? (fun x => decide (x.item_name = w.item_name))).isSome then
    (.error .itemTypeExists, db)
  else
    let wh := w.toWarehouse
    let db1 := addTable db w.item_name
    (.ok wh, { db1 with registry := db1.registry ++ [wh] })

/-- `crud.py::get_schema` restricted to the `warehouse_name` filter
(how `update_schema` calls it): all schema blobs of matching registry
rows; none found raises `ItemSchemaNotFoundError`, several raise
`TooManyResultsError`. -/
def get_schema (db : DBState) (warehouse_name : String) :
    Except CrudError ItemSchema :=
  let results :=
    (db.registry.filter (fun w => decide (w.name = warehouse_name))).map
      (fun w => w.item_schema)
  match results with
  | [] => .error .itemSchemaNotFound
  | [s] => .ok s
  | _ :: _ :: _ => .error (.tooManyResults results.length)

/-- `crud.py::update_schema` lines 241-268: unknown field raises
`InvalidFieldsError`; a `RESET` hint stores
`DisplayType.from_type_name(schema[field]["type"])`, any other hint is
stored as supplied; the updated schema is written back to the registry
row and re-read via `get_schema`. -/
def update_schema (db : DBState) (display_as : DisplayType)
    (field_name : String) (warehouse_name : String) :
    (Except CrudError ItemSchema) × DBState :=
  match get_warehouse db warehouse_name with
  | none => (.error (.warehouseNotFound warehouse_name), db)
  | some w =>
    if (w.item_schema.lookup field_name).isNone then
      (.error (.invalidFields [field_name]), db)
    else
      let newDisplay :=
        if display_as = DisplayType.reset then
          DisplayType.from_type_name
            (((w.item_schema.lookup field_name).map
              (fun d => d.type)).getD FieldType.tString)
        else display_as
      let schema2 := w.item_schema.map (fun fd =>
        if fd.1 = field_name then (fd.1, { fd.2 with display_as := newDisplay })
        else fd)
      let registry2 := db.registry.map (fun x =>
        if x.name = warehouse_name then { x with item_schema := schema2 }
        else x)
      let db2 := { db with registry := registry2 }
      (get_schema db2 warehouse_name, db2)

/-- Does value `v` satisfy the declared type and nullability of `d`? -/
def valueMatches (d : FieldDescriptor) (v : Value) : Bool :=
  match v with
  | .vNull => d.nullable
  | .vInt _ =>
    match d.type with
    | .tInteger => true
    | .tFloat => true
    | .tJson => true
    | _ => false
  | .vStr _ =>
    match d.type with
    | .tString => true
    | .tDatetime => true
    | .tJson => true
    | _ => false
  | .vBool _ =>
    match d.type with
    | .tBoolean => true
    | .tJson => true
    | _ => false

/-- Modelled from the spec: the pydantic validator produced by the
absent `schemas.py` (`item_schema_class.model_validate`), spec section
4.3 — rejects unknown fields, enforces declared types and nullability,
and only lets a field be omitted when it is nullable, defaulted, or an
autoincrementing key. -/
def validateRecord (schema : ItemSchema) (r : Record) :
    Except CrudError Unit :=
  let unknown := (r.map Prod.fst).filter (fun f => (schema.lookup f).isNone)
  if unknown.isEmpty then
    let bad := schema.filter (fun fd =>
      match r.lookup fd.1 with
      | some v => !(valueMatches fd.2 v)
      | none =>
        !(fd.2.nullable || fd.2.hasDefault || fd.2.autoincrement.triggers))
    if bad.isEmpty then .ok ()
    else .error (.validationError (bad.map Prod.fst))
  else .error (.validationError unknown)

/-- `models.py::as_dict(include=...)` as the spec describes it: the
full record, or only the requested fields. -/
def projectRecord (r : Record) (field_names : Option (List String)) : Record :=
  match field_names with
  | none => r
  | some fns => r.filter (fun kv => fns.contains kv.1)

/-- `crud.py::get_item_by_pk` lines 356-399: resolve the warehouse,
reject unknown requested field names (`InvalidFieldsError`; skipped
when `field_names` is falsy), `.get()` the row by its key tuple, and
either tolerate absence (`no_exist_ok`) or raise `ItemNotFoundError`. -/
def get_item_by_pk (db : DBState) (warehouse_name : String)
    (pk_values : Record) (field_names : Option (List String))
    (no_exist_ok : Bool) : Except CrudError (Option Record) :=
  match get_warehouse db warehouse_name with
  | none => .error (.warehouseNotFound warehouse_name)
  | some w =>
    let unknown := match field_names with
      | none => []
      | some fns =>
        if fns.isEmpty then []
        else fns.filter (fun f => (w.item_schema.lookup f).isNone)
    if unknown.isEmpty then
      let item_pk := parse_pk_dict w pk_values
      let rows := getTable db w.item_name
      match rows.find? (fun r => decide (keyTuple w r = item_pk)) with
      | none =>
        if no_exist_ok then .ok none else .error .itemNotFound
      | some item => .ok (some (projectRecord item field_names))
    else .error (.invalidFields unknown)

/-- Modelled from the spec: `Warehouse.search_params_are_pks` of the
absent `models.py` — true exactly when the search-parameter key set
equals the warehouse's key-field set (spec section 4.4: "if
searchParams exactly matches the key-field set, delegates to
getItemByKey"). -/
def search_params_are_pks (w : Warehouse) (params : Record) : Bool :=
  let keys := params.map Prod.fst
  w.pk_name.all (fun k => keys.contains k)
    && keys.all (fun k => w.pk_name.contains k)

structure ItemPage where
  count : Nat
  items : List Record
  max_page : Nat
  page : Nat
  total : Nat
  include_fields : Bool
deriving DecidableEq

/-- `crud.py::get_items` returns either the delegated single-item
lookup or a page. -/
inductive ItemsResult
  | single (item : Option Record)
  | page (p : ItemPage)
deriving DecidableEq

/-- `crud.py::get_item_count` lines 525-530: unfiltered row count of
the warehouse's physical table. -/
def get_item_count (db : DBState) (warehouse_name : String) :
    Except CrudError Nat :=
  match get_warehouse db warehouse_name with
  | none => .error (.warehouseNotFound warehouse_name)
  | some w => .ok (getTable db w.item_name).length

/-- `crud.py::get_items` lines 402-484: delegate to `get_item_by_pk`
when the search parameters are exactly the key fields; otherwise sort
any requested projection (`AttributeError` on an unknown name is
remapped to `InvalidFieldsError`), apply one equality filter per
search parameter (`getattr` on an unknown search key raises a plain
`AttributeError`), slice by offset/limit, and build a page whose
`total` is the unfiltered `get_item_count` and whose
`max_page = total // limit` (Python `//`: `ZeroDivisionError` when
`limit` is zero). -/
def get_items (db : DBState) (warehouse_name : String)
    (field_names : Option (List String)) (search_params : Record)
    (offset : Nat) (limit : Nat) (include_fields : Bool) :
    Except CrudError ItemsResult :=
  match get_warehouse db warehouse_name with
  | none => .error (.warehouseNotFound warehouse_name)
  | some w =>
    if search_params_are_pks w search_params then
      (get_item_by_pk db warehouse_name search_params field_names
        false).map ItemsResult.single
    else
      let fnsSorted : Option (List String) := match field_names with
        | none => none
        | some fns =>
          if fns.isEmpty then none
          else some (fns.mergeSort (fun a b => a ≤ b))
      match (match fnsSorted with
        | none => none
        | some fns => fns.find? (fun f => (w.item_schema.lookup f).isNone)) with
      | some f => .error (.invalidFields [f])
      | none =>
        match search_params.find?
          (fun kv => (w.item_schema.lookup kv.1).isNone) with
        | some kv => .error (.attrError kv.1)
        | none =>
          let rows := getTable db w.item_name
          let filtered := rows.filter (fun r =>
            search_params.all (fun kv => decide (r.lookup kv.1 = some kv.2)))
          let results := (filtered.drop offset).take limit
          let items := match fnsSorted with
            | none => results
            | some fns => results.map (fun r =>
              fns.filterMap (fun f => (r.lookup f).map (fun v => (f, v))))
          let total := rows.length
          if limit = 0 then .error .zeroDivision
          else .ok (.page ⟨items.length, items, total / limit,
            offset / limit + 1, total, include_fields⟩)

/-- The `"autoincrement"` entry of a key field's schema dict
(`warehouse.item_schema[pk_name].get("autoincrement")`). -/
def autoSettingOf (schema : ItemSchema) (pk : String) : AutoSetting :=
  ((schema.lookup pk).map (fun d => d.autoincrement)).getD .aunset

/-- Outcome of the key-resolution loop of `crud.py::create_item` lines
281-294: `break` on an absent autoincrementing key (skip the existence
pre-check), a plain `KeyError` from `item[pk_name]` on an absent
ordinary key, or the accumulated key values with the loop's `else`
branch (run the pre-check). -/
inductive PkResolution
  | skip
  | check (pk_values : Record)
  | kerr (field : String)
deriving DecidableEq

/-- The `for pk_name in warehouse.pk_name` loop of
`crud.py::create_item`, with its `for ... else` shape made explicit. -/
def resolvePkLoop (schema : ItemSchema) (item : Record) :
    List String → Record → PkResolution
  | [], acc => .check acc
  | pk :: rest, acc =>
    if !(hasField item pk) && (autoSettingOf schema pk).triggers then
      .skip
    else
      match item.lookup pk with
      | none => .kerr pk
      | some v => resolvePkLoop schema item rest (acc ++ [(pk, v)])

/-- The first key field (declaration order) missing from the input. -/
def firstAbsentPk (item : Record) (pks : List String) : Option String :=
  pks.find? (fun k => !(hasField item k))

/-- Key/value pairs of the key fields that are present in the input,
in declaration order. -/
def presentPkValues (item : Record) (pks : List String) : Record :=
  pks.filterMap (fun k => (item.lookup k).map (fun v => (k, v)))

/-- The validate-insert-reread tail of `crud.py::create_item` lines
296-312: validate against the schema, insert the row (storage assigns
any omitted autoincrementing key — modelled from the spec as the next
row number), and return the re-read row. -/
def insertItemFlow (db : DBState) (w : Warehouse) (item : Record) :
    Except CrudError (Record × DBState) :=
  match validateRecord w.item_schema item with
  | .error e => .error e
  | .ok _ =>
    let rows := getTable db w.item_name
    let row := item ++
      (w.pk_name.filter (fun k =>
        !(hasField item k) && (autoSettingOf w.item_schema k).triggers)).map
        (fun k => (k, Value.vInt (Int.ofNat rows.length + 1)))
    .ok (row, setTable db w.item_name (rows ++ [row]))

/-- `crud.py::create_item` lines 274-312: resolve the warehouse, run
the key-resolution loop, and on its `else` branch pre-check existence
(`if get_item_by_pk(..., no_exist_ok=True):` — Python truthiness, so
an empty dict would not trigger `ItemExistsError`), then insert. -/
def create_item (db : DBState) (warehouse_name : String) (item : Record) :
    Except CrudError (Record × DBState) :=
  match get_warehouse db warehouse_name with
  | none => .error (.warehouseNotFound warehouse_name)
  | some w =>
    match resolvePkLoop w.item_schema item w.pk_name [] with
    | .kerr f => .error (.keyError f)
    | .skip => insertItemFlow db w item
    | .check pkv =>
      match get_item_by_pk db warehouse_name pkv none true with
      | .error e => .error e
      | .ok (some r) =>
        if r.isEmpty then insertItemFlow db w item
        else .error .itemExists
      | .ok none => insertItemFlow db w item

/-- `crud.py::update_item` lines 487-521: read the current record by
key (propagating `ItemNotFoundError`), merge the patch over it with
Python dict union, validate the merged dict (result discarded), issue
a partial `UPDATE` of the patched columns on the row matching the key
tuple (a unique-constraint `IntegrityError` is remapped to
`ItemExistsError`), commit, and re-read by the original key values. -/
def update_item (db : DBState) (warehouse_name : String)
    (pk_values : Record) (item_update : Record) :
    Except CrudError (Record × DBState) :=
  match get_warehouse db warehouse_name with
  | none => .error (.warehouseNotFound warehouse_name)
  | some w =>
    match get_item_by_pk db warehouse_name pk_values none false with
    | .error e => .error e
    | .ok none => .error .itemNotFound
    | .ok (some current) =>
      match validateRecord w.item_schema (mergeRecords current item_update) with
      | .error e => .error e
      | .ok _ =>
        let item_pk := parse_pk_dict w pk_values
        let rows := getTable db w.item_name
        let rows2 := rows.map (fun r =>
          if keyTuple w r = item_pk then applyPatch r item_update else r)
        if (rows2.map (fun r => keyTuple w r)).Nodup then
          let db2 := setTable db w.item_name rows2
          (get_item_by_pk db2 warehouse_name pk_values none false).map
            (fun o => (o.getD [], db2))
        else .error .itemExists

/-- Items carried by a successful page result, `[]` otherwise. -/
def itemsOf : Except CrudError ItemsResult → List Record
  | .ok (.page p) => p.items
  | _ => []

/-! ### Concrete demonstration data

A small "people" warehouse (single autoincrementing integer key), a
"nums" warehouse used for pagination runs, and two composite-key
warehouses exercising the key-resolution loop. -/

def peopleSchema : ItemSchema :=
  [("id", ⟨.tInteger, false, false, .atrue, .number, true⟩),
   ("name", ⟨.tString, false, false, .aunset, .text, false⟩),
   ("age", ⟨.tInteger, true, false, .aunset, .number, false⟩)]

def peopleW : Warehouse := ⟨"people", "person", peopleSchema⟩

def rowJoe : Record := [("id", .vInt 1), ("name", .vStr "Joe"), ("age", .vInt 42)]

def rowAnn : Record := [("id", .vInt 2), ("name", .vStr "Ann"), ("age", .vInt 30)]

def peopleDb : DBState := ⟨true, [peopleW], [("person", [rowJoe, rowAnn])]⟩

def c5db : DBState := ⟨true, [peopleW], [("person", [rowJoe])]⟩

def numSchema : ItemSchema :=
  [("id", ⟨.tInteger, false, false, .atrue, .number, true⟩)]

def numW : Warehouse := ⟨"nums", "num", numSchema⟩

def numRows7 : List Record :=
  (List.range 7).map (fun i => [("id", Value.vInt (Int.ofNat i + 1))])

def c4db : DBState := ⟨true, [numW], [("num", numRows7)]⟩

def c4db6 : DBState := ⟨true, [numW], [("num", numRows7.take 6)]⟩

def pairSchema : ItemSchema :=
  [("k1", ⟨.tInteger, false, false, .aunset, .number, true⟩),
   ("k2", ⟨.tInteger, false, false, .atrue, .number, true⟩),
   ("name", ⟨.tString, false, false, .aunset, .text, false⟩)]

def pairW : Warehouse := ⟨"pairs", "pair", pairSchema⟩

def c6db : DBState := ⟨true, [pairW], [("pair", [])]⟩

def pair10Schema : ItemSchema :=
  [("k1", ⟨.tInteger, false, false, .atrue, .number, true⟩),
   ("k2", ⟨.tInteger, false, false, .aunset, .number, true⟩),
   ("name", ⟨.tString, false, false, .aunset, .text, false⟩)]

def pair10W : Warehouse := ⟨"pairs10", "pair10", pair10Schema⟩

def c10db : DBState := ⟨true, [pair10W], [("pair10", [])]⟩

/-! ### Shared association-list lemmas -/

/-- Looking up `f` after updating the entry named `f` in place yields
the updated value; other entries do not affect the result. -/
theorem lookup_map_update {β : Type} (l : List (String × β)) (f : String)
    (h : β → β) :
    (l.map (fun kv => if kv.1 = f then (kv.1, h kv.2) else kv)).lookup f
      = (l.lookup f).map h := by
  induction l with
  | nil => rfl
  | cons kv tl ih =>
    obtain ⟨k, b⟩ := kv
    by_cases hk : k = f
    · subst hk
      simp [List.lookup_cons]
    · have hbeq : (f == k) = false := by
        simp [Ne.symm hk]
      simp [List.lookup_cons, hk, hbeq, ih]

/-- A patched row reads back as the original row with the patch's
values substituted where the patch names an existing column. -/
theorem lookup_applyPatch (r patch : Record) (f : String) :
    (applyPatch r patch).lookup f
      = (r.lookup f).map (fun v => (patch.lookup f).getD v) := by
  induction r with
  | nil => rfl
  | cons kv tl ih =>
    obtain ⟨k, b⟩ := kv
    by_cases hk : f = k
    · subst hk
      simp [applyPatch, List.lookup_cons]
    · have hbeq : (f == k) = false := by simp [hk]
      simp [applyPatch, List.lookup_cons, hbeq] at ih ⊢
      exact ih

/-- `find?` commutes with a map that does not change the predicate's
verdict on any element of the list. -/
theorem find?_map_of_pred {α : Type} (g : α → α) (p : α → Bool) :
    ∀ (l : List α), (∀ r ∈ l, p (g r) = p r) →
    (l.map g).find? p = (l.find? p).map g := by
  intro l
  induction l with
  | nil => intro _; rfl
  | cons x tl ih =>
    intro hp
    have hx := hp x (List.mem_cons_self x tl)
    by_cases hpx : p x = true
    · rw [List.map_cons, List.find?_cons_of_pos _ (hx.trans hpx),
        List.find?_cons_of_pos _ hpx]
      rfl
    · have hpx' : p x = false := by
        cases h : p x
        · rfl
        · exact absurd h hpx
      rw [List.map_cons,
        List.find?_cons_of_neg _ (by simp [hx, hpx']),
        List.find?_cons_of_neg _ (by simp [hpx'])]
      exact ih (fun r hr => hp r (List.mem_cons_of_mem x hr))

/-- Writing a table and reading it back yields the written rows. -/
theorem getTable_setTable (db : DBState) (n : String) (t : List Record) :
    getTable (setTable db n t) n = t := by
  show ((setAssoc db.tables n t).lookup n).getD [] = t
  induction db.tables with
  | nil => simp [setAssoc, List.lookup_cons]
  | cons e es ih =>
    obtain ⟨k, v⟩ := e
    by_cases he : k = n
    · simp [setAssoc, he, List.lookup_cons]
    · have hbeq : (n == k) = false := by simp [Ne.symm he]
      simp only [setAssoc, he, if_false, List.lookup_cons, hbeq]
      exact ih

/-- Replacing a physical table leaves the registry untouched. -/
theorem get_warehouse_setTable (db : DBState) (n : String)
    (t : List Record) (name : String) :
    get_warehouse (setTable db n t) name = get_warehouse db name := rfl

/-! ### Claim C1 -/

/-- Claim C1 (code bug evidence): at a registration whose registry-row
persistence step fails (`persistFails = true`), `create_warehouse`
returns a success value carrying the warehouse, with no registry row
persisted and the freshly created physical table dropped again — the
`except OperationalError` handler of `crud.py` lines 57-59 never
re-raises, so the spec's "the original failure is re-raised" is
violated by the code. -/
theorem create_warehouse_swallows_persistence_failure :
    create_warehouse (DBState.mk true [] [])
        (WarehouseCreate.mk "people" "person" peopleSchema) true
      = (.ok (Warehouse.mk "people" "person" peopleSchema),
         DBState.mk true [] []) := by
  decide

/-! ### Claim C2 -/

/-- Claim C2: registering a warehouse named `"warehouse"` fails with
`NameReserved` for every schema and every starting state, and the
state — registry rows and physical tables alike — is left untouched. -/
theorem reserved_name_registration_fails (db : DBState)
    (w : WarehouseCreate) (h : w.name = "warehouse") :
    main_create_warehouse db w = (.error (.nameReserved "warehouse"), db) := by
  simp [main_create_warehouse, h]

/-- Concrete run of the reserved-name rejection. -/
theorem reserved_name_registration_fails_witness :
    main_create_warehouse (DBState.mk true [] [])
        (WarehouseCreate.mk "warehouse" "thing" peopleSchema)
      = (.error (.nameReserved "warehouse"), DBState.mk true [] []) :=
  reserved_name_registration_fails (DBState.mk true [] [])
    (WarehouseCreate.mk "warehouse" "thing" peopleSchema) rfl

/-! ### Claim C9 -/

/-- Claim C9: in `get_warehouses`, a missing or zero limit makes the
effective limit the total row count, so with the registry table
present but empty the page computation `total // limit` divides by
zero instead of producing an empty page. -/
theorem get_warehouses_empty_registry_divides_by_zero (db : DBState)
    (offset : Nat) (limit : Option Nat)
    (h : limit = none ∨ limit = some 0) :
    (∀ total, effectiveLimit limit total = total) ∧
    (db.registryExists = true → db.registry = [] →
      get_warehouses db offset limit false = .error .zeroDivision) := by
  rcases h with h | h <;> subst h <;>
    refine ⟨fun total => rfl, fun hex hreg => ?_⟩ <;>
    simp [get_warehouses, hex, hreg, effectiveLimit]

/-- Concrete run: no limit supplied, registry table exists and is
empty, and the operation raises `ZeroDivisionError`. -/
theorem get_warehouses_empty_registry_divides_by_zero_witness :
    effectiveLimit none 5 = 5 ∧
    get_warehouses (DBState.mk true [] []) 0 none false
      = .error .zeroDivision :=
  ⟨(get_warehouses_empty_registry_divides_by_zero
      (DBState.mk true [] []) 0 none (Or.inl rfl)).1 5,
   (get_warehouses_empty_registry_divides_by_zero
      (DBState.mk true [] []) 0 none (Or.inl rfl)).2 rfl rfl⟩

/-! ### Claim C3 -/

/-- Claim C3: whenever the search-parameter key set is exactly the
warehouse's key-field set, `get_items` returns precisely the
`get_item_by_pk` result for those values — the same single record on a
hit and the same `NotFound` when no record matches, for every state,
projection and paging argument. -/
theorem get_items_delegates_to_pk_lookup (db : DBState) (wn : String)
    (w : Warehouse) (fns : Option (List String)) (params : Record)
    (offset limit : Nat) (inc : Bool)
    (hw : get_warehouse db wn = some w)
    (hpk : search_params_are_pks w params = true) :
    get_items db wn fns params offset limit inc
      = (get_item_by_pk db wn params fns false).map ItemsResult.single := by
  simp only [get_items]
  rw [hw]
  simp [hpk]

/-- Concrete run of the delegation: key-set search on the people
warehouse returns the single matching record, as the key lookup does. -/
theorem get_items_delegates_to_pk_lookup_witness :
    get_items peopleDb "people" none [("id", Value.vInt 1)] 0 100 false
      = (get_item_by_pk peopleDb "people" [("id", Value.vInt 1)] none
          false).map ItemsResult.single :=
  get_items_delegates_to_pk_lookup peopleDb "people" peopleW none
    [("id", Value.vInt 1)] 0 100 false (by decide) (by decide)

/-! ### Claim C8 -/

/-- Claim C8 (amended): on the scan path of `get_items` the `total`
field of the returned page is the unfiltered row count of the
warehouse's whole table — the value `get_item_count` reports —
regardless of how many records the search parameters match. -/
theorem get_items_total_is_unfiltered_count (db : DBState) (wn : String)
    (w : Warehouse) (params : Record) (offset limit : Nat) (inc : Bool)
    (hw : get_warehouse db wn = some w)
    (hpk : search_params_are_pks w params = false)
    (hsk : params.find? (fun kv => (w.item_schema.lookup kv.1).isNone) = none)
    (hl : limit ≠ 0) :
    ∃ pg : ItemPage,
      get_items db wn none params offset limit inc = .ok (.page pg) ∧
      pg.total = (getTable db w.item_name).length ∧
      get_item_count db wn = .ok pg.total := by
  simp only [get_items]
  rw [hw]
  simp only [hpk, Bool.false_eq_true, if_false, hsk]
  simp only [hl, if_false]
  exact ⟨_, rfl, rfl, by simp [get_item_count, hw]⟩

/-- Concrete run: a name filter matching one of two people still
yields `total = 2`. -/
theorem get_items_total_is_unfiltered_count_witness :
    ∃ pg : ItemPage,
      get_items peopleDb "people" none [("name", Value.vStr "Joe")] 0 100
          false = .ok (.page pg) ∧
      pg.total = (getTable peopleDb "person").length ∧
      get_item_count peopleDb "people" = .ok pg.total :=
  get_items_total_is_unfiltered_count peopleDb "people" peopleW
    [("name", Value.vStr "Joe")] 0 100 false (by decide) (by decide)
    (by decide) (by decide)

/-- Claim C8 as stated is false: filtering the two-person table down
to the single record named Joe returns a page whose `total` is 2, not
the number of records matching the query. -/
theorem get_items_total_counterexample :
    get_items peopleDb "people" none [("name", Value.vStr "Joe")] 0 100 false
      = .ok (.page ⟨1, [rowJoe], 0, 1, 2, false⟩) ∧
    ((getTable peopleDb "person").filter (fun r =>
        [(("name" : String), Value.vStr "Joe")].all
          (fun kv => decide (r.lookup kv.1 = some kv.2)))).length = 1 ∧
    (2 : Nat) ≠ 1 := by
  decide

/-! ### Claim C7 -/

/-- After rewriting one registry row's schema in place, `get_schema`
reads back exactly the rewritten schema, provided the warehouse name
matched exactly one registry row to begin with. -/
theorem get_schema_after_update (db : DBState) (wn : String)
    (w : Warehouse) (s2 : ItemSchema)
    (hfilter : db.registry.filter (fun x => decide (x.name = wn)) = [w]) :
    get_schema { db with registry := db.registry.map (fun x =>
        if x.name = wn then { x with item_schema := s2 } else x) } wn
      = .ok s2 := by
  have hwname : w.name = wn := by
    have hmem : w ∈ db.registry.filter (fun x => decide (x.name = wn)) := by
      rw [hfilter]
      exact List.mem_singleton.mpr rfl
    simpa using (List.mem_filter.mp hmem).2
  simp only [get_schema]
  rw [List.filter_map]
  have hcongr : db.registry.filter
      ((fun x => decide (x.name = wn)) ∘ (fun x =>
        if x.name = wn then { x with item_schema := s2 } else x))
      = db.registry.filter (fun x => decide (x.name = wn)) := by
    apply List.filter_congr
    intro x _
    by_cases h : x.name = wn <;> simp [Function.comp, h]
  rw [hcongr, hfilter]
  simp [hwname]

/-- Claim C7: `update_schema` fails with the unknown-field error when
the named field is not in the warehouse's schema (state untouched);
with the special reset hint it stores the default display hint
recomputed from the field's declared type — not any caller-supplied
value — persists the updated schema into the registry row, and
returns it. -/
theorem update_schema_reset_recomputes_display (db : DBState)
    (wn f : String) (w : Warehouse) (d : FieldDescriptor)
    (hw : get_warehouse db wn = some w) :
    ((w.item_schema.lookup f).isNone = true →
      update_schema db DisplayType.reset f wn
        = (.error (.invalidFields [f]), db)) ∧
    (w.item_schema.lookup f = some d →
     db.registry.filter (fun x => decide (x.name = wn)) = [w] →
     ∃ s2,
       (update_schema db DisplayType.reset f wn).1 = .ok s2 ∧
       s2.lookup f
         = some { d with display_as := DisplayType.from_type_name d.type } ∧
       (update_schema db DisplayType.reset f wn).2.registry
         = db.registry.map (fun x =>
             if x.name = wn then { x with item_schema := s2 } else x)) := by
  constructor
  · intro hnone
    simp only [update_schema]
    rw [hw]
    simp [hnone]
  · intro hlook hfilter
    simp only [update_schema]
    rw [hw]
    simp only [hlook, Option.isNone_some, Bool.false_eq_true, if_false,
      if_pos rfl, Option.map_some', Option.getD_some, eq_self_iff_true,
      if_true]
    refine ⟨_, get_schema_after_update db wn w _ hfilter, ?_, rfl⟩
    rw [lookup_map_update w.item_schema f
      (fun b => { b with display_as := DisplayType.from_type_name d.type }),
      hlook]
    rfl

/-- Concrete run: resetting the display hint of the integer field
`age` stores the integer type's default hint and persists it. -/
theorem update_schema_reset_recomputes_display_witness :
    ∃ s2,
      (update_schema peopleDb DisplayType.reset "age" "people").1
        = .ok s2 ∧
      s2.lookup "age"
        = some { (⟨FieldType.tInteger, true, false, AutoSetting.aunset,
                   DisplayType.number, false⟩ : FieldDescriptor) with
                 display_as := DisplayType.from_type_name FieldType.tInteger } ∧
      (update_schema peopleDb DisplayType.reset "age" "people").2.registry
        = peopleDb.registry.map (fun x =>
            if x.name = "people" then { x with item_schema := s2 } else x) :=
  (update_schema_reset_recomputes_display peopleDb "people" "age" peopleW
    ⟨FieldType.tInteger, true, false, AutoSetting.aunset,
      DisplayType.number, false⟩ (by decide)).2 (by decide) (by decide)

/-! ### Claims C6 and C10: the key-resolution loop -/

/-- Characterization of the `for pk_name in warehouse.pk_name` loop:
its outcome is decided by the first key field absent from the input —
none absent runs the pre-check on the accumulated values, an absent
autoincrementing key breaks out, an absent ordinary key is a plain
`KeyError`. -/
theorem resolvePkLoop_spec (schema : ItemSchema) (item : Record) :
    ∀ (pks : List String) (acc : Record),
    resolvePkLoop schema item pks acc =
      match firstAbsentPk item pks with
      | none => .check (acc ++ presentPkValues item pks)
      | some k =>
        if (autoSettingOf schema k).triggers then .skip else .kerr k := by
  intro pks
  induction pks with
  | nil =>
    intro acc
    simp [resolvePkLoop, firstAbsentPk, presentPkValues]
  | cons pk rest ih =>
    intro acc
    cases hl : item.lookup pk with
    | some v =>
      have hf : hasField item pk = true := by simp [hasField, hl]
      have hfa : firstAbsentPk item (pk :: rest) = firstAbsentPk item rest := by
        simp [firstAbsentPk, List.find?_cons_of_neg, hf]
      rw [hfa]
      have hpv : presentPkValues item (pk :: rest)
          = (pk, v) :: presentPkValues item rest := by
        simp [presentPkValues, hl]
      rw [hpv]
      simp only [resolvePkLoop, hf, Bool.not_true, Bool.false_and,
        Bool.false_eq_true, if_false, hl]
      rw [ih (acc ++ [(pk, v)])]
      cases firstAbsentPk item rest <;> simp
    | none =>
      have hf : hasField item pk = false := by simp [hasField, hl]
      have hfa : firstAbsentPk item (pk :: rest) = some pk := by
        simp [firstAbsentPk, List.find?_cons_of_pos, hf]
      rw [hfa]
      cases ht : (autoSettingOf schema pk).triggers <;>
        simp [resolvePkLoop, hf, ht, hl]

/-- Claim C6 (amended): when the first key field (in declaration
order) absent from the input is an autoincrementing one, `create_item`
skips the existence pre-check and proceeds straight to the
validate-insert flow; when no key field is absent, the pre-check runs
on the extracted key tuple — a (non-empty) existing record raises
`ItemExists` and otherwise the insert flow proceeds. -/
theorem create_item_precheck_cases (db : DBState) (wn : String)
    (item : Record) (w : Warehouse)
    (hw : get_warehouse db wn = some w) :
    (∀ k, firstAbsentPk item w.pk_name = some k →
      (autoSettingOf w.item_schema k).triggers = true →
      create_item db wn item = insertItemFlow db w item) ∧
    (firstAbsentPk item w.pk_name = none →
      (get_item_by_pk db wn (presentPkValues item w.pk_name) none true
          = .ok none →
        create_item db wn item = insertItemFlow db w item) ∧
      (∀ r, get_item_by_pk db wn (presentPkValues item w.pk_name) none true
          = .ok (some r) → r.isEmpty = false →
        create_item db wn item = .error .itemExists)) := by
  constructor
  · intro k hfa ht
    simp only [create_item]
    rw [hw]
    dsimp only
    rw [resolvePkLoop_spec, hfa]
    simp [ht]
  · intro hfa
    constructor
    · intro hget
      simp only [create_item]
      rw [hw]
      dsimp only
      rw [resolvePkLoop_spec, hfa]
      dsimp only
      rw [List.nil_append, hget]
    · intro r hget hne
      simp only [create_item]
      rw [hw]
      dsimp only
      rw [resolvePkLoop_spec, hfa]
      dsimp only
      rw [List.nil_append, hget]
      simp [hne]

/-- Concrete run of the skip branch: the people warehouse's single
autoincrementing key is absent, so creation bypasses the pre-check
and goes straight to the insert flow. -/
theorem create_item_precheck_cases_witness :
    create_item peopleDb "people" [("name", Value.vStr "Zoe")]
      = insertItemFlow peopleDb peopleW [("name", Value.vStr "Zoe")] :=
  (create_item_precheck_cases peopleDb "people"
    [("name", Value.vStr "Zoe")] peopleW (by decide)).1 "id" (by decide)
    (by decide)

/-- Claim C6 as stated is false: in the `pairs` warehouse the key
fields are `k1` (ordinary) then `k2` (autoincrementing); with both
absent, some absent key field is an autoincrementing integer key, yet
the call does not skip ahead to an insert — it dies with a plain
`KeyError` on `k1`. -/
theorem create_item_precheck_counterexample :
    pairW.pk_name = ["k1", "k2"] ∧
    hasField [(("name" : String), Value.vStr "x")] "k2" = false ∧
    (autoSettingOf pairW.item_schema "k2").triggers = true ∧
    create_item c6db "pairs" [("name", Value.vStr "x")]
      = .error (.keyError "k1") := by
  decide

/-- Claim C10 (amended): when the first key field (in declaration
order) absent from the input is not autoincrementing, the
key-resolution loop's unguarded `item[pk_name]` raises a plain
`KeyError` — an error outside the spec's taxonomy. -/
theorem create_item_missing_key_plain_keyerror (db : DBState)
    (wn : String) (item : Record) (w : Warehouse) (k : String)
    (hw : get_warehouse db wn = some w)
    (hfa : firstAbsentPk item w.pk_name = some k)
    (hna : (autoSettingOf w.item_schema k).triggers = false) :
    create_item db wn item = .error (.keyError k) ∧
    isTaxonomyError (.keyError k) = false := by
  refine ⟨?_, rfl⟩
  simp only [create_item]
  rw [hw]
  dsimp only
  rw [resolvePkLoop_spec, hfa]
  simp [hna]

/-- Concrete run: the `pairs` warehouse's ordinary key `k1` is absent
and the call raises the plain `KeyError`, which is not a taxonomy
kind. -/
theorem create_item_missing_key_plain_keyerror_witness :
    create_item c6db "pairs" [("k2", Value.vInt 9)]
        = .error (.keyError "k1") ∧
    isTaxonomyError (.keyError "k1") = false :=
  create_item_missing_key_plain_keyerror c6db "pairs"
    [("k2", Value.vInt 9)] pairW "k1" (by decide) (by decide) (by decide)

/-- Claim C10 as stated is false: in the `pairs10` warehouse the key
fields are `k1` (autoincrementing) then `k2` (ordinary); with both
absent, some absent key field is non-autoincrementing, yet no
`KeyError` is raised — the loop breaks at `k1` first and the call
fails later as a schema `ValidationError` on `k2`, a taxonomy kind. -/
theorem create_item_missing_key_counterexample :
    pair10W.pk_name = ["k1", "k2"] ∧
    hasField [(("name" : String), Value.vStr "x")] "k2" = false ∧
    (autoSettingOf pair10W.item_schema "k2").triggers = false ∧
    create_item c10db "pairs10" [("name", Value.vStr "x")]
      = .error (.validationError ["k2"]) ∧
    isTaxonomyError (.validationError ["k2"]) = true := by
  decide

/-! ### Claim C4: pagination -/

/-- Shape of a full-table scan page: with no search parameters and no
projection, `get_items` returns the offset/limit slice of the table,
`total` the table's length, `max_page = total / limit` and
`page = offset / limit + 1`. -/
theorem get_items_empty_params_page (db : DBState) (wn : String)
    (w : Warehouse) (offset limit : Nat) (inc : Bool)
    (hw : get_warehouse db wn = some w)
    (hpk : search_params_are_pks w [] = false)
    (hl : limit ≠ 0) :
    get_items db wn none [] offset limit inc =
      .ok (.page ⟨(((getTable db w.item_name).drop offset).take limit).length,
        ((getTable db w.item_name).drop offset).take limit,
        (getTable db w.item_name).length / limit, offset / limit + 1,
        (getTable db w.item_name).length, inc⟩) := by
  simp only [get_items]
  rw [hw]
  simp only [hpk, Bool.false_eq_true, if_false]
  simp [hl, List.filter_true]

/-- Chopping a list whose length is `L * k` into `k` successive
`L`-sized slices and flattening them reproduces the list. -/
theorem flatten_chunks {α : Type} (L : Nat) :
    ∀ (k : Nat) (rows : List α), rows.length = L * k →
    ((List.range k).map (fun p => (rows.drop (p * L)).take L)).flatten
      = rows := by
  intro k
  induction k with
  | zero =>
    intro rows hlen
    rw [Nat.mul_zero] at hlen
    rw [List.eq_nil_of_length_eq_zero hlen]
    rfl
  | succ k ih =>
    intro rows hlen
    rw [List.range_succ_eq_map, List.map_cons, List.map_map,
      List.flatten_cons]
    have hdrops : (fun p => (rows.drop (p * L)).take L) ∘ Nat.succ
        = fun p => ((rows.drop L).drop (p * L)).take L := by
      funext p
      simp only [Function.comp]
      rw [List.drop_drop, Nat.succ_mul, Nat.add_comm (p * L) L]
    rw [hdrops, ih (rows.drop L) (by
      rw [List.length_drop, hlen, Nat.mul_succ]
      exact Nat.add_sub_cancel (L * k) L)]
    simp [List.take_append_drop]

/-- Claim C4 (amended): for a warehouse with `T = L * k` records and
limit `L > 0`, every page request reports `max_page = T / L` and
`page = offset / L + 1`, and walking the offset-based pages numbered
`1` to `max_page` visits every record exactly once, in order and with
no gaps; when `L` does not divide `T` the trailing `T mod L` records
fall beyond page `max_page` (see the counterexample). -/
theorem get_items_pagination_partitions (db : DBState) (wn : String)
    (w : Warehouse) (L : Nat)
    (hw : get_warehouse db wn = some w)
    (hpk : search_params_are_pks w [] = false)
    (hL : L ≠ 0)
    (hdvd : L ∣ (getTable db w.item_name).length) :
    (∀ offset inc, ∃ pg : ItemPage,
      get_items db wn none [] offset L inc = .ok (.page pg) ∧
      pg.max_page = (getTable db w.item_name).length / L ∧
      pg.page = offset / L + 1 ∧
      pg.total = (getTable db w.item_name).length) ∧
    ((List.range ((getTable db w.item_name).length / L)).map
      (fun p => itemsOf (get_items db wn none [] (p * L) L false))).flatten
      = getTable db w.item_name := by
  constructor
  · intro offset inc
    exact ⟨_, get_items_empty_params_page db wn w offset L inc hw hpk hL,
      rfl, rfl, rfl⟩
  · have hpages : ∀ p, itemsOf (get_items db wn none [] (p * L) L false)
        = ((getTable db w.item_name).drop (p * L)).take L := by
      intro p
      rw [get_items_empty_params_page db wn w (p * L) L false hw hpk hL]
      rfl
    rw [List.map_congr_left (fun p _ => hpages p)]
    exact flatten_chunks L _ (getTable db w.item_name)
      (Nat.mul_div_cancel' hdvd).symm

/-- Concrete run: six records, limit 2, pages 1-3 reproduce the whole
table. -/
theorem get_items_pagination_partitions_witness :
    (∃ pg : ItemPage,
      get_items c4db6 "nums" none [] 0 2 false = .ok (.page pg) ∧
      pg.max_page = (getTable c4db6 "num").length / 2 ∧
      pg.page = 0 / 2 + 1 ∧
      pg.total = (getTable c4db6 "num").length) ∧
    ((List.range ((getTable c4db6 "num").length / 2)).map
      (fun p => itemsOf (get_items c4db6 "nums" none [] (p * 2) 2
        false))).flatten = getTable c4db6 "num" :=
  ⟨(get_items_pagination_partitions c4db6 "nums" numW 2 (by decide)
      (by decide) (by decide) (by decide)).1 0 false,
   (get_items_pagination_partitions c4db6 "nums" numW 2 (by decide)
      (by decide) (by decide) (by decide)).2⟩

/-- Claim C4 as stated is false for `T = 7, L = 2`: the page envelope
reports `max_page = 3`, yet pages 1 to 3 yield only the first six
records — the seventh is never visited, so iterating to `max_page`
does not cover the record set. -/
theorem get_items_pagination_counterexample :
    (getTable c4db "num").length = 7 ∧
    get_items c4db "nums" none [] 0 2 false
      = .ok (.page ⟨2, numRows7.take 2, 3, 1, 7, false⟩) ∧
    ((List.range 3).map
      (fun p => itemsOf (get_items c4db "nums" none [] (p * 2) 2
        false))).flatten = numRows7.take 6 ∧
    numRows7.take 6 ≠ numRows7 := by
  decide

/-! ### Claim C5: updates and their frame -/

/-- Claim C5 (amended): for a stored record `R` found by its key tuple
and a patch that passes re-validation when merged over `R` and does
not move `R` off its key (each key field it names keeps the stored
value), `update_item` succeeds and returns the storage re-read of the
patched row: every field named in the patch (and present on the row)
carries the patch's value, every other field is unchanged.  A patch
that rewrites a key field makes the final re-read miss instead (see
the counterexample). -/
theorem update_item_frame (db : DBState) (wn : String) (w : Warehouse)
    (R pk_values patch : Record)
    (hw : get_warehouse db wn = some w)
    (hfind : (getTable db w.item_name).find?
        (fun r => decide (keyTuple w r = parse_pk_dict w pk_values))
      = some R)
    (hval : validateRecord w.item_schema (mergeRecords R patch) = .ok ())
    (hkeys : ∀ k ∈ w.pk_name, ∀ v, patch.lookup k = some v →
      R.lookup k = some v)
    (hnodup : ((getTable db w.item_name).map
      (fun r => keyTuple w r)).Nodup) :
    ∃ db2, update_item db wn pk_values patch
        = .ok (applyPatch R patch, db2) ∧
      (∀ f v, patch.lookup f = some v → hasField R f = true →
        (applyPatch R patch).lookup f = some v) ∧
      (∀ f, patch.lookup f = none →
        (applyPatch R patch).lookup f = R.lookup f) := by
  have hpt : keyTuple w R = parse_pk_dict w pk_values := by
    have h := List.find?_some hfind
    exact of_decide_eq_true h
  -- any row sharing the looked-up key tuple agrees with the patch on
  -- the key fields, so patching it preserves its key tuple
  have htuple_patch : ∀ r, keyTuple w r = parse_pk_dict w pk_values →
      keyTuple w (applyPatch r patch) = keyTuple w r := by
    intro r htup
    apply List.map_congr_left
    intro k hk
    have hrR : r.lookup k = R.lookup k :=
      (List.map_eq_map_iff.mp (htup.trans hpt.symm)) k hk
    rw [lookup_applyPatch]
    cases hp : patch.lookup k with
    | none =>
      cases r.lookup k <;> simp
    | some v =>
      rw [hrR, hkeys k hk v hp]
      rfl
  have hgt : ∀ r, keyTuple w (if keyTuple w r = parse_pk_dict w pk_values
        then applyPatch r patch else r) = keyTuple w r := by
    intro r
    by_cases hc : keyTuple w r = parse_pk_dict w pk_values
    · rw [if_pos hc]
      exact htuple_patch r hc
    · rw [if_neg hc]
  have hpred : ∀ r ∈ getTable db w.item_name,
      (fun x => decide (keyTuple w x = parse_pk_dict w pk_values))
        ((fun x => if keyTuple w x = parse_pk_dict w pk_values
          then applyPatch x patch else x) r)
      = (fun x => decide (keyTuple w x = parse_pk_dict w pk_values)) r := by
    intro r _
    simp only [hgt r]
  have hread1 : get_item_by_pk db wn pk_values none false
      = .ok (some R) := by
    simp only [get_item_by_pk]
    rw [hw]
    dsimp only
    rw [hfind]
    rfl
  have hread2 : get_item_by_pk (setTable db w.item_name
        ((getTable db w.item_name).map (fun r =>
          if keyTuple w r = parse_pk_dict w pk_values
          then applyPatch r patch else r))) wn pk_values none false
      = .ok (some (applyPatch R patch)) := by
    simp only [get_item_by_pk]
    rw [get_warehouse_setTable, hw]
    dsimp only
    rw [getTable_setTable,
      find?_map_of_pred _ _ (getTable db w.item_name) hpred, hfind]
    dsimp only [Option.map_some']
    rw [if_pos hpt]
    rfl
  have hmapt : (((getTable db w.item_name).map (fun r =>
        if keyTuple w r = parse_pk_dict w pk_values
        then applyPatch r patch else r)).map
      (fun r => keyTuple w r)).Nodup := by
    rw [List.map_map]
    have : ((fun r => keyTuple w r) ∘ (fun r =>
        if keyTuple w r = parse_pk_dict w pk_values
        then applyPatch r patch else r))
        = fun r => keyTuple w r := by
      funext r
      exact hgt r
    rw [this]
    exact hnodup
  simp only [update_item]
  rw [hw]
  dsimp only
  rw [hread1]
  dsimp only
  rw [hval]
  dsimp only
  rw [if_pos hmapt, hread2]
  refine ⟨_, rfl, ?_, ?_⟩
  · intro f v hpf hhf
    rw [lookup_applyPatch]
    rcases hR : R.lookup f with _ | u
    · rw [hasField, hR] at hhf
      cases hhf
    · rw [hpf]
      rfl
  · intro f hpf
    rw [lookup_applyPatch, hpf]
    cases R.lookup f <;> rfl

/-- Concrete run: patching Joe's non-key field `age` keeps `id` and
`name` and stores the new `age`. -/
theorem update_item_frame_witness :
    ∃ db2, update_item c5db "people" [("id", Value.vInt 1)]
          [("age", Value.vInt 43)]
        = .ok (applyPatch rowJoe [("age", Value.vInt 43)], db2) ∧
      (∀ f v, List.lookup f [(("age" : String), Value.vInt 43)] = some v →
        hasField rowJoe f = true →
        (applyPatch rowJoe [("age", Value.vInt 43)]).lookup f = some v) ∧
      (∀ f, List.lookup f [(("age" : String), Value.vInt 43)] = none →
        (applyPatch rowJoe [("age", Value.vInt 43)]).lookup f
          = rowJoe.lookup f) :=
  update_item_frame c5db "people" peopleW rowJoe [("id", Value.vInt 1)]
    [("age", Value.vInt 43)] (by decide) (by decide) (by decide)
    (by decide) (by decide)

/-- Claim C5 as stated is false for a patch that names a key field
with a new value: the row is patched in place, but the mandated
re-read by the original key values then fails, so the call raises
`NotFound` instead of returning the patched record. -/
theorem update_item_key_patch_counterexample :
    (getTable c5db "person").find? (fun r =>
        decide (keyTuple peopleW r
          = parse_pk_dict peopleW [("id", Value.vInt 1)])) = some rowJoe ∧
    update_item c5db "people" [("id", Value.vInt 1)] [("id", Value.vInt 2)]
      = .error .itemNotFound := by
  decide
